import Mathlib

/-!
Shallow embedding of the engine.io / socket.io server core
(files engine/socket.go and engine/fasthttp.go), with theorems
checking the specification claims against the code.

External effects (reads from a connection, writes, pause or resume of a
connection, mime parsing, payload decoding, the closed signal) are
modelled as oracle inputs supplied in environment structures; the
embedded functions reproduce the control flow of the Go source over
those oracles, and the observable effects are returned in trace
structures.
-/

/-- Engine packet types, as in the Go PacketType constants
(digits Open=0, Close=1, Ping=2, Pong=3, Message=4, Upgrade=5, Noop=6). -/
inductive PacketType
  | Open
  | Close
  | Ping
  | Pong
  | Message
  | Upgrade
  | Noop
deriving DecidableEq

/-- Engine message types: UTF-8 text versus opaque binary. -/
inductive MessageType
  | MsgString
  | MsgBinary
deriving DecidableEq

/-- Engine packet: message type, packet type and payload bytes. -/
structure Packet where
  msgType : MessageType
  pktType : PacketType
  data : List Nat
deriving DecidableEq

/-- The replaceable part of an engine Socket: the current conn
(identified by a number) and the transport name. -/
structure SocketState where
  conn : Nat
  transport : String
deriving DecidableEq

/-- Oracle inputs to Socket.upgrade: the result of the first ReadPacket
on newConn, whether WritePacket of the pong succeeds, whether Pause of
the current conn succeeds, and the result of the second ReadPacket. -/
structure UpgradeEnv where
  read1 : Except Unit Packet
  writeOk : Bool
  pauseOk : Bool
  read2 : Except Unit Packet

/-- Observable outcome of Socket.upgrade: the resulting conn and
transport fields, whether newConn was closed, the pong packet
successfully written to newConn (if any), whether the current conn was
paused and whether it was resumed, and the EventUpgrade payload fired
to listeners (if any). -/
structure UpgradeTrace where
  conn : Nat
  transport : String
  newConnClosed : Bool
  wrotePong : Option Packet
  paused : Bool
  resumed : Bool
  fired : Option (MessageType × List Nat)
deriving DecidableEq

/-- Embedding of Socket.upgrade (engine/socket.go): read a packet from
newConn which must be a Ping, answer Pong with the same payload, pause
the current conn, read again which must be an Upgrade, then swap conn
and transport and fire EventUpgrade; on any failure close newConn,
and resume the current conn when it had been paused. -/
def upgrade (s : SocketState) (tr : String) (newConn : Nat) (env : UpgradeEnv) : UpgradeTrace :=
  match env.read1 with
  | .error _ => ⟨s.conn, s.transport, true, none, false, false, none⟩
  | .ok p =>
    if p.pktType ≠ PacketType.Ping then
      ⟨s.conn, s.transport, true, none, false, false, none⟩
    else
      if env.writeOk then
        if env.pauseOk then
          match env.read2 with
          | .error _ =>
            ⟨s.conn, s.transport, true, some ⟨p.msgType, PacketType.Pong, p.data⟩, true, true, none⟩
          | .ok q =>
            if q.pktType ≠ PacketType.Upgrade then
              ⟨s.conn, s.transport, true, some ⟨p.msgType, PacketType.Pong, p.data⟩, true, true, none⟩
            else
              ⟨newConn, tr, false, some ⟨p.msgType, PacketType.Pong, p.data⟩, true, false,
                some (q.msgType, q.data)⟩
        else
          ⟨s.conn, s.transport, true, some ⟨p.msgType, PacketType.Pong, p.data⟩, false, false, none⟩
      else
        ⟨s.conn, s.transport, true, none, false, false, none⟩

/-- State observed by Socket.Close: whether the sync.Once already ran,
and how many times emitter.close and conn.Close have been invoked. -/
structure CloseState where
  onceDone : Bool
  emitterCloses : Nat
  connCloses : Nat
deriving DecidableEq

/-- Embedding of one call to Socket.Close (engine/socket.go): under the
one-shot latch, close the emitter and the conn and return the conn
Close error; otherwise do nothing and return nil. -/
def socketClose (st : CloseState) (connErr : Option String) : CloseState × Option String :=
  if st.onceDone then (st, none)
  else (⟨true, st.emitterCloses + 1, st.connCloses + 1⟩, connErr)

/-- N successive calls to Socket.Close, collecting the returned errors. -/
def socketCloseN : Nat → CloseState → Option String → CloseState × List (Option String)
  | 0, st, _ => (st, [])
  | n + 1, st, e =>
    let r := socketClose st e
    let rest := socketCloseN n r.1 e
    (rest.1, r.2 :: rest.2)

/-- C1: whenever the upgrade handshake fails at any step (first read
errors or is not a Ping, the pong write fails, Pause fails, second read
errors or is not an Upgrade), the conn and transport fields are
unchanged, newConn is closed, and if the current conn had been paused
it is resumed. -/
theorem upgrade_failure_preserves_conn (s : SocketState) (tr : String) (newConn : Nat)
    (env : UpgradeEnv)
    (hfail : env.read1 = .error () ∨
      (∃ p, env.read1 = .ok p ∧ p.pktType ≠ PacketType.Ping) ∨
      env.writeOk = false ∨ env.pauseOk = false ∨
      env.read2 = .error () ∨
      (∃ q, env.read2 = .ok q ∧ q.pktType ≠ PacketType.Upgrade)) :
    (upgrade s tr newConn env).conn = s.conn ∧
    (upgrade s tr newConn env).transport = s.transport ∧
    (upgrade s tr newConn env).newConnClosed = true ∧
    ((upgrade s tr newConn env).paused = true → (upgrade s tr newConn env).resumed = true) := by
  obtain ⟨r1, w, pk, r2⟩ := env
  rcases r1 with e1 | p1
  · simp [upgrade]
  · by_cases h1 : p1.pktType = PacketType.Ping
    · cases w
      · simp [upgrade, h1]
      · cases pk
        · simp [upgrade, h1]
        · rcases r2 with e2 | p2
          · simp [upgrade, h1]
          · by_cases h2 : p2.pktType = PacketType.Upgrade
            · exfalso
              rcases hfail with h | ⟨p, hp, hne⟩ | h | h | h | ⟨q, hq, hne⟩
              · exact Except.noConfusion h
              · exact hne ((Except.ok.injEq _ _ ▸ hp : p1 = p) ▸ h1)
              · exact Bool.noConfusion h
              · exact Bool.noConfusion h
              · exact Except.noConfusion h
              · exact hne ((Except.ok.injEq _ _ ▸ hq : p2 = q) ▸ h2)
            · simp [upgrade, h1, h2]
    · simp [upgrade, h1]

/-- C1 witness: a handshake whose first read errors leaves a concrete
socket unchanged and closes newConn. -/
theorem upgrade_failure_preserves_conn_w :
    (upgrade ⟨0, "polling"⟩ "websocket" 1 ⟨.error (), true, true, .error ()⟩).conn = 0 ∧
    (upgrade ⟨0, "polling"⟩ "websocket" 1 ⟨.error (), true, true, .error ()⟩).transport = "polling" ∧
    (upgrade ⟨0, "polling"⟩ "websocket" 1 ⟨.error (), true, true, .error ()⟩).newConnClosed = true ∧
    ((upgrade ⟨0, "polling"⟩ "websocket" 1 ⟨.error (), true, true, .error ()⟩).paused = true →
      (upgrade ⟨0, "polling"⟩ "websocket" 1 ⟨.error (), true, true, .error ()⟩).resumed = true) :=
  upgrade_failure_preserves_conn ⟨0, "polling"⟩ "websocket" 1
    ⟨.error (), true, true, .error ()⟩ (Or.inl rfl)

/-- C2: when newConn sends a Ping, the Pong with the same payload is
written, Pause succeeds and newConn then sends an Upgrade, the conn
field becomes newConn, the transport field becomes the new transport
name, and EventUpgrade is fired with the Upgrade packet payload. -/
theorem upgrade_success_swaps (s : SocketState) (tr : String) (newConn : Nat)
    (env : UpgradeEnv) (p q : Packet)
    (h1 : env.read1 = .ok p) (hp : p.pktType = PacketType.Ping)
    (hw : env.writeOk = true) (hpa : env.pauseOk = true)
    (h2 : env.read2 = .ok q) (hq : q.pktType = PacketType.Upgrade) :
    upgrade s tr newConn env =
      ⟨newConn, tr, false, some ⟨p.msgType, PacketType.Pong, p.data⟩, true, false,
        some (q.msgType, q.data)⟩ := by
  obtain ⟨r1, w, pk, r2⟩ := env
  simp only at h1 hw hpa h2
  subst h1 h2 hw hpa
  simp [upgrade, hp, hq]

/-- C2 witness: a concrete successful handshake swaps the conn to the
new one and fires EventUpgrade with the Upgrade payload. -/
theorem upgrade_success_swaps_w :
    upgrade ⟨0, "polling"⟩ "websocket" 1
        ⟨.ok ⟨MessageType.MsgString, PacketType.Ping, [7]⟩, true, true,
          .ok ⟨MessageType.MsgString, PacketType.Upgrade, [9]⟩⟩ =
      ⟨1, "websocket", false, some ⟨MessageType.MsgString, PacketType.Pong, [7]⟩, true, false,
        some (MessageType.MsgString, [9])⟩ :=
  upgrade_success_swaps ⟨0, "polling"⟩ "websocket" 1
    ⟨.ok ⟨MessageType.MsgString, PacketType.Ping, [7]⟩, true, true,
      .ok ⟨MessageType.MsgString, PacketType.Upgrade, [9]⟩⟩
    ⟨MessageType.MsgString, PacketType.Ping, [7]⟩
    ⟨MessageType.MsgString, PacketType.Upgrade, [9]⟩
    rfl rfl rfl rfl rfl rfl

/-- After the first call, the once latch is set and further calls do
nothing and return nil. -/
theorem socketCloseN_done (n : Nat) (st : CloseState) (e : Option String)
    (h : st.onceDone = true) :
    socketCloseN n st e = (st, List.replicate n none) := by
  induction n with
  | zero => simp [socketCloseN]
  | succ k ih =>
    simp [socketCloseN, socketClose, h, ih, List.replicate]

/-- C3: starting from a fresh socket, N ≥ 1 calls to Close invoke
conn.Close exactly once and close the emitter exactly once; the calls
after the first return nil. -/
theorem close_idempotent (n : Nat) (e : Option String) (hn : 1 ≤ n) :
    (socketCloseN n ⟨false, 0, 0⟩ e).1.connCloses = 1 ∧
    (socketCloseN n ⟨false, 0, 0⟩ e).1.emitterCloses = 1 ∧
    (socketCloseN n ⟨false, 0, 0⟩ e).2 = e :: List.replicate (n - 1) none := by
  obtain ⟨m, rfl⟩ := Nat.exists_eq_add_of_le hn
  have hstep : socketCloseN (1 + m) ⟨false, 0, 0⟩ e =
      ((⟨true, 1, 1⟩ : CloseState), e :: List.replicate m none) := by
    have h1 : socketClose ⟨false, 0, 0⟩ e = (⟨true, 1, 1⟩, e) := by
      simp [socketClose]
    rw [Nat.add_comm 1 m]
    simp [socketCloseN, h1, socketCloseN_done m ⟨true, 1, 1⟩ e rfl]
  rw [hstep]
  simp

/-- C3 witness: three calls to Close on a fresh socket close the conn
and the emitter once and return the first error then nil twice. -/
theorem close_idempotent_w :
    (socketCloseN 3 ⟨false, 0, 0⟩ (some "boom")).1.connCloses = 1 ∧
    (socketCloseN 3 ⟨false, 0, 0⟩ (some "boom")).1.emitterCloses = 1 ∧
    (socketCloseN 3 ⟨false, 0, 0⟩ (some "boom")).2 =
      some "boom" :: List.replicate (3 - 1) none :=
  close_idempotent 3 (some "boom") (by decide)

/-- Modelled from the spec: the engine event constants (EventOpen,
EventMessage, EventClose, EventError, EventUpgrade, EventPing,
EventPong); the Go file declaring the event type is not under src,
only its uses in engine/socket.go. -/
inductive Event
  | Open
  | Message
  | Close
  | Error
  | Upgrade
  | Ping
  | Pong
deriving DecidableEq

/-- The switch at the top of Socket.emit (engine/socket.go): the packet
type for an event, none for the events of the default branch. -/
def eventPacketType : Event → Option PacketType
  | .Open => some PacketType.Open
  | .Message => some PacketType.Message
  | .Close => some PacketType.Close
  | .Ping => some PacketType.Ping
  | .Pong => some PacketType.Pong
  | _ => none

/-- The args argument of Socket.emit: a byte slice, a string, or any
other value together with the result of json.Marshal on it (an oracle,
since json encoding is external). -/
inductive EmitArgs
  | bytes (d : List Nat)
  | str (s : String)
  | other (json : Except Unit (List Nat))

/-- Outcome of Socket.emit: ErrInvalidEvent, a json.Marshal error, or a
packet submitted to the emitter. -/
inductive EmitOutcome
  | invalidEvent
  | jsonError
  | submitted (p : Packet)
deriving DecidableEq

/-- UTF-8 bytes of a string, as the Go conversion from string to a byte
slice. -/
def strBytes (s : String) : List Nat := s.toUTF8.toList.map (fun b => b.toNat)

/-- Embedding of Socket.emit (engine/socket.go): map the event to a
packet type (unknown events fail with ErrInvalidEvent before args is
inspected), serialize args (byte slice raw, string as UTF-8 bytes,
anything else by json.Marshal), and submit the packet. -/
def emit (ev : Event) (mt : MessageType) (args : EmitArgs) : EmitOutcome :=
  match eventPacketType ev with
  | none => .invalidEvent
  | some pt =>
    match args with
    | .bytes d => .submitted ⟨mt, pt, d⟩
    | .str s => .submitted ⟨mt, pt, strBytes s⟩
    | .other (.ok d) => .submitted ⟨mt, pt, d⟩
    | .other (.error _) => .jsonError

/-- C4: Socket.emit maps EventOpen, EventMessage, EventClose,
EventPing, EventPong to the corresponding packet types; EventError and
EventUpgrade (the only other events) yield ErrInvalidEvent whatever the
args; for mapped events a byte-slice arg is used raw, a string arg as
its UTF-8 bytes, and any other arg by its JSON encoding, and the packet
is submitted. -/
theorem emit_event_mapping (ev : Event) (mt : MessageType) (pt : PacketType)
    (d j : List Nat) (s : String) (args : EmitArgs)
    (hmap : eventPacketType ev = some pt) :
    eventPacketType Event.Open = some PacketType.Open ∧
    eventPacketType Event.Message = some PacketType.Message ∧
    eventPacketType Event.Close = some PacketType.Close ∧
    eventPacketType Event.Ping = some PacketType.Ping ∧
    eventPacketType Event.Pong = some PacketType.Pong ∧
    emit Event.Error mt args = EmitOutcome.invalidEvent ∧
    emit Event.Upgrade mt args = EmitOutcome.invalidEvent ∧
    emit ev mt (.bytes d) = EmitOutcome.submitted ⟨mt, pt, d⟩ ∧
    emit ev mt (.str s) = EmitOutcome.submitted ⟨mt, pt, strBytes s⟩ ∧
    emit ev mt (.other (.ok j)) = EmitOutcome.submitted ⟨mt, pt, j⟩ := by
  refine ⟨rfl, rfl, rfl, rfl, rfl, rfl, rfl, ?_, ?_, ?_⟩ <;> simp [emit, hmap]

/-- C4 witness: concrete evaluations of emit at EventMessage. -/
theorem emit_event_mapping_w :
    eventPacketType Event.Open = some PacketType.Open ∧
    eventPacketType Event.Message = some PacketType.Message ∧
    eventPacketType Event.Close = some PacketType.Close ∧
    eventPacketType Event.Ping = some PacketType.Ping ∧
    eventPacketType Event.Pong = some PacketType.Pong ∧
    emit Event.Error MessageType.MsgString (.bytes [1]) = EmitOutcome.invalidEvent ∧
    emit Event.Upgrade MessageType.MsgString (.bytes [1]) = EmitOutcome.invalidEvent ∧
    emit Event.Message MessageType.MsgString (.bytes [1, 2]) =
      EmitOutcome.submitted ⟨MessageType.MsgString, PacketType.Message, [1, 2]⟩ ∧
    emit Event.Message MessageType.MsgString (.str "hi") =
      EmitOutcome.submitted ⟨MessageType.MsgString, PacketType.Message, strBytes "hi"⟩ ∧
    emit Event.Message MessageType.MsgString (.other (.ok [3])) =
      EmitOutcome.submitted ⟨MessageType.MsgString, PacketType.Message, [3]⟩ :=
  emit_event_mapping Event.Message MessageType.MsgString PacketType.Message
    [1, 2] [3] "hi" (.bytes [1]) rfl

/-- Socket.io packet types, digits Connect=0, Disconnect=1, Event=2,
Ack=3, Error=4, BinaryEvent=5, BinaryAck=6. -/
inductive SioPacketType
  | Connect
  | Disconnect
  | Event
  | Ack
  | Error
  | BinaryEvent
  | BinaryAck
deriving DecidableEq

/-- The wire digit of a socket.io packet type, used by the numeric
comparison in Server.process. -/
def SioPacketType.toNat : SioPacketType → Nat
  | .Connect => 0
  | .Disconnect => 1
  | .Event => 2
  | .Ack => 3
  | .Error => 4
  | .BinaryEvent => 5
  | .BinaryAck => 6

/-- The fields of a socket.io packet that Server.process inspects: the
type, the namespace, and the optional ack id. The data field is
consumed only through the ParseData oracle. -/
structure SioPacket where
  type : SioPacketType
  nsp : String
  id : Option Nat
deriving DecidableEq

/-- Observable actions of Server.process: an Error packet emitted back
on a namespace, a namespace detached, the event handler fired, an Ack
packet sent with an id and data, an error surfaced via onError, and the
ack handler fired. -/
inductive PAction
  | emitError (nsp : String) (msg : String)
  | detach (nsp : String)
  | fireEvent (ev : String)
  | ackSent (id : Nat) (data : Option (List Nat))
  | onError (nsp : String)
  | fireAck (id : Nat)
deriving DecidableEq

/-- Oracle inputs to Server.process: whether attachnsp finds the
namespace, the result of decoder.ParseData (the decoded event name on
success), and the result of nsp.fireEvent (the handler return values on
success, none standing for a nil slice). -/
structure ProcessEnv where
  nspAttached : Bool
  parseData : Except Unit String
  fireEvent : Except Unit (Option (List Nat))

/-- The message of the ErrorNamespaceUnavaialble error (name kept with
the typo of the source). -/
def ErrorNamespaceUnavaialble : String := "namespace unavailable"

/-- Embedding of Server.process (socket.io server file). The Ack send
for an inbound Event with an id is modelled from the spec: sock.ack is
not under src; per the spec it encodes an Ack packet with the same id
and the handler return values as data. -/
def process (p : SioPacket) (env : ProcessEnv) : List PAction :=
  if env.nspAttached = false then
    if SioPacketType.toNat p.type > SioPacketType.toNat SioPacketType.Disconnect then
      [.emitError p.nsp ErrorNamespaceUnavaialble]
    else []
  else
    match p.type with
    | .Connect => []
    | .Disconnect => [.detach p.nsp]
    | .Event | .BinaryEvent =>
      match env.parseData with
      | .error _ => [.onError p.nsp]
      | .ok ev =>
        if ev = "" then []
        else
          match env.fireEvent with
          | .error _ => [.fireEvent ev, .onError p.nsp]
          | .ok v =>
            match p.id with
            | none => [.fireEvent ev]
            | some i => [.fireEvent ev, .ackSent i v]
    | .Ack | .BinaryAck =>
      match p.id with
      | none => []
      | some i =>
        match env.parseData with
        | .error _ => [.onError p.nsp]
        | .ok _ => [.fireAck i]
    | .Error => [.onError p.nsp]

/-- C5: for an Event or BinaryEvent packet with an ack id in an
attached namespace, a successful handler yields exactly one Ack with
the same id carrying the handler return values (none for a nil slice);
a parse or handler error is surfaced via onError and no Ack is sent. -/
theorem process_event_ack (p : SioPacket) (env : ProcessEnv) (i : Nat)
    (ht : p.type = SioPacketType.Event ∨ p.type = SioPacketType.BinaryEvent)
    (hid : p.id = some i) (hn : env.nspAttached = true) :
    (∀ ev v, env.parseData = .ok ev → ev ≠ "" → env.fireEvent = .ok v →
      process p env = [.fireEvent ev, .ackSent i v]) ∧
    (env.parseData = .error () →
      process p env = [.onError p.nsp]) ∧
    (∀ ev, env.parseData = .ok ev → ev ≠ "" → env.fireEvent = .error () →
      process p env = [.fireEvent ev, .onError p.nsp]) := by
  refine ⟨?_, ?_, ?_⟩
  · intro ev v hpd hne hfe
    rcases ht with h | h <;> simp [process, hn, h, hpd, hne, hfe, hid]
  · intro hpd
    rcases ht with h | h <;> simp [process, hn, h, hpd]
  · intro ev hpd hne hfe
    rcases ht with h | h <;> simp [process, hn, h, hpd, hne, hfe]

/-- C5 witness: a concrete Event packet with id 4 whose handler returns
one value gets exactly the Ack with id 4 and that value. -/
theorem process_event_ack_w :
    (∀ ev v, (Except.ok "add" : Except Unit String) = .ok ev → ev ≠ "" →
        (Except.ok (some [3]) : Except Unit (Option (List Nat))) = .ok v →
      process ⟨SioPacketType.Event, "/", some 4⟩ ⟨true, .ok "add", .ok (some [3])⟩ =
        [.fireEvent ev, .ackSent 4 v]) ∧
    ((Except.ok "add" : Except Unit String) = .error () →
      process ⟨SioPacketType.Event, "/", some 4⟩ ⟨true, .ok "add", .ok (some [3])⟩ =
        [.onError "/"]) ∧
    (∀ ev, (Except.ok "add" : Except Unit String) = .ok ev → ev ≠ "" →
        (Except.ok (some [3]) : Except Unit (Option (List Nat))) = .error () →
      process ⟨SioPacketType.Event, "/", some 4⟩ ⟨true, .ok "add", .ok (some [3])⟩ =
        [.fireEvent ev, .onError "/"]) :=
  process_event_ack ⟨SioPacketType.Event, "/", some 4⟩ ⟨true, .ok "add", .ok (some [3])⟩ 4
    (Or.inl rfl) rfl rfl

/-- C10: when attachnsp returns nil, Connect and Disconnect packets are
silently dropped, every other packet type gets an Error packet with
ErrorNamespaceUnavaialble emitted back on its namespace, and no event
or ack handler is fired. -/
theorem process_namespace_unavailable (p : SioPacket) (env : ProcessEnv)
    (hn : env.nspAttached = false) :
    ((p.type = SioPacketType.Connect ∨ p.type = SioPacketType.Disconnect) →
      process p env = []) ∧
    (p.type ≠ SioPacketType.Connect → p.type ≠ SioPacketType.Disconnect →
      process p env = [.emitError p.nsp ErrorNamespaceUnavaialble]) ∧
    (∀ ev, PAction.fireEvent ev ∉ process p env) ∧
    (∀ i, PAction.fireAck i ∉ process p env) := by
  refine ⟨?_, ?_, ?_, ?_⟩
  · rintro (h | h) <;> simp [process, hn, h, SioPacketType.toNat]
  · intro h1 h2
    cases hty : p.type <;> simp_all [process, hn, SioPacketType.toNat]
  · intro ev
    cases hty : p.type <;> simp [process, hn, hty, SioPacketType.toNat]
  · intro i
    cases hty : p.type <;> simp [process, hn, hty, SioPacketType.toNat]

/-- C10 witness: a concrete Event packet on an unattached namespace
gets only the Error emission; a Connect one is dropped. -/
theorem process_namespace_unavailable_w :
    ((SioPacket.mk SioPacketType.Event "/chat" none).type = SioPacketType.Connect ∨
      (SioPacket.mk SioPacketType.Event "/chat" none).type = SioPacketType.Disconnect →
      process ⟨SioPacketType.Event, "/chat", none⟩ ⟨false, .error (), .error ()⟩ = []) ∧
    ((SioPacket.mk SioPacketType.Event "/chat" none).type ≠ SioPacketType.Connect →
      (SioPacket.mk SioPacketType.Event "/chat" none).type ≠ SioPacketType.Disconnect →
      process ⟨SioPacketType.Event, "/chat", none⟩ ⟨false, .error (), .error ()⟩ =
        [.emitError "/chat" ErrorNamespaceUnavaialble]) ∧
    (∀ ev, PAction.fireEvent ev ∉
      process ⟨SioPacketType.Event, "/chat", none⟩ ⟨false, .error (), .error ()⟩) ∧
    (∀ i, PAction.fireAck i ∉
      process ⟨SioPacketType.Event, "/chat", none⟩ ⟨false, .error (), .error ()⟩) :=
  process_namespace_unavailable ⟨SioPacketType.Event, "/chat", none⟩
    ⟨false, .error (), .error ()⟩ rfl

/-- Oracle inputs to the GET branch of pollingConn.HandleFastHTTP: the
result of ReadPacketOut, the result of parsing the request URI (the
jsonp and b64 query parameters on success), and whether writing the
packet to the response succeeds. -/
structure GetEnv where
  readPacket : Except Unit Packet
  urlParse : Except Unit (String × String)
  writeOk : Bool

/-- Oracle inputs to the POST branch of pollingConn.HandleFastHTTP: the
result of mime.ParseMediaType on the Content-Type header (media type
and charset parameter on success, the absent parameter being the empty
string), the result of decoding the body as a Payload for a given xhr2
flag, and the index in the push loop at which the closed signal is
selected (none when it never is). -/
structure PostEnv where
  mediaParse : Except Unit (String × String)
  decodeBody : Bool → Except Unit (List Packet)
  closeAt : Option Nat

/-- The three wire formats a GET response can use. -/
inductive WireFormat
  | JSONP
  | XHR
  | XHR2
deriving DecidableEq

/-- Observable outcome of pollingConn.HandleFastHTTP: the status code
set (none when no status was set on the early-failing write paths), the
Content-Type header set, the wire format chosen, the packets pushed to
the in queue, and the xhr2 flag the body was decoded with. -/
structure HandleResult where
  status : Option Nat
  contentType : Option String
  format : Option WireFormat
  pushed : List Packet
  xhr2Used : Option Bool
deriving DecidableEq

/-- ASCII lowering of a string, as strings.ToLower on the charset
values compared by the handler. -/
def toLowerStr (s : String) : String := String.mk (s.data.map Char.toLower)

/-- The push loop of the POST branch: push each decoded packet to the
in queue in order, aborting when the closed signal is selected; returns
the status code and the packets pushed. -/
def pushLoop (pkts : List Packet) (closeAt : Option Nat) : Nat × List Packet :=
  match closeAt with
  | some i => if i < pkts.length then (404, pkts.take i) else (200, pkts)
  | none => (200, pkts)

/-- The GET branch of pollingConn.HandleFastHTTP: a ReadPacketOut error
answers 404, a URI parse error 400; otherwise a non-empty jsonp query
parameter selects JSONP, else b64=1 selects textual XHR, else binary
XHR2, each setting its Content-Type before writing and the 200 status
after a successful write. -/
def handleGET (env : GetEnv) : HandleResult :=
  match env.readPacket with
  | .error _ => ⟨some 404, none, none, [], none⟩
  | .ok _ =>
    match env.urlParse with
    | .error _ => ⟨some 400, none, none, [], none⟩
    | .ok (jsonp, b64) =>
      if jsonp ≠ "" then
        ⟨if env.writeOk then some 200 else none,
          some "text/javascript; charset=UTF-8", some WireFormat.JSONP, [], none⟩
      else if b64 = "1" then
        ⟨if env.writeOk then some 200 else none,
          some "text/plain; charset=UTF-8", some WireFormat.XHR, [], none⟩
      else
        ⟨if env.writeOk then some 200 else none,
          some "application/octet-stream", some WireFormat.XHR2, [], none⟩

/-- The body handling of the POST branch after content negotiation:
decode the body as a Payload with the given xhr2 flag (500 on decode
error), then run the push loop. -/
def postBody (env : PostEnv) (xhr2 : Bool) : HandleResult :=
  match env.decodeBody xhr2 with
  | .error _ => ⟨some 500, none, none, [], some xhr2⟩
  | .ok pkts =>
    let r := pushLoop pkts env.closeAt
    ⟨some r.1, none, none, r.2, some xhr2⟩

/-- The POST branch of pollingConn.HandleFastHTTP: an unparseable
Content-Type answers 400; application/octet-stream selects the xhr2
payload form; text/plain requires charset utf-8 (case-insensitively),
else 400; any other media type answers 400. -/
def handlePOST (env : PostEnv) : HandleResult :=
  match env.mediaParse with
  | .error _ => ⟨some 400, none, none, [], none⟩
  | .ok (mt, charset) =>
    if mt = "application/octet-stream" then
      postBody env true
    else if mt = "text/plain" then
      if toLowerStr charset ≠ "utf-8" then ⟨some 400, none, none, [], none⟩
      else postBody env false
    else ⟨some 400, none, none, [], none⟩

/-- Embedding of pollingConn.HandleFastHTTP (engine/fasthttp.go): an
already-closed conn answers 400 with ErrPollingConnClosed whatever the
method; otherwise GET and POST are dispatched to their branches and any
other method answers 405. -/
def pollingHandleFastHTTP (closed : Bool) (method : String)
    (genv : GetEnv) (penv : PostEnv) : HandleResult :=
  if closed then ⟨some 400, none, none, [], none⟩
  else if method = "GET" then handleGET genv
  else if method = "POST" then handlePOST penv
  else ⟨some 405, none, none, [], none⟩

/-- C6: a POST with an accepted media type decodes the body as a
Payload, in xhr2 form exactly for application/octet-stream, and pushes
the decoded packets to the in queue in order; if the closed signal is
selected before all packets are pushed the response is 404 and the
remaining packets are not pushed, otherwise the response is 200. -/
theorem post_accepted_pushes (genv : GetEnv) (penv : PostEnv)
    (mt cs : String) (pkts : List Packet)
    (hm : penv.mediaParse = .ok (mt, cs))
    (hacc : mt = "application/octet-stream" ∨
      (mt = "text/plain" ∧ toLowerStr cs = "utf-8"))
    (hd : penv.decodeBody (mt == "application/octet-stream") = .ok pkts) :
    (pollingHandleFastHTTP false "POST" genv penv).xhr2Used =
      some (mt == "application/octet-stream") ∧
    (∀ i, penv.closeAt = some i → i < pkts.length →
      (pollingHandleFastHTTP false "POST" genv penv).status = some 404 ∧
      (pollingHandleFastHTTP false "POST" genv penv).pushed = pkts.take i) ∧
    (∀ i, penv.closeAt = some i → pkts.length ≤ i →
      (pollingHandleFastHTTP false "POST" genv penv).status = some 200 ∧
      (pollingHandleFastHTTP false "POST" genv penv).pushed = pkts) ∧
    (penv.closeAt = none →
      (pollingHandleFastHTTP false "POST" genv penv).status = some 200 ∧
      (pollingHandleFastHTTP false "POST" genv penv).pushed = pkts) := by
  rcases hacc with h | ⟨h, hcs⟩
  · subst h
    simp only [beq_self_eq_true] at hd ⊢
    refine ⟨by simp [pollingHandleFastHTTP, handlePOST, postBody, hm, hd],
      fun i hc hlt => ?_, fun i hc hge => ?_, fun hc => ?_⟩
    · constructor <;>
        simp [pollingHandleFastHTTP, handlePOST, postBody, hm, hd, pushLoop, hc, hlt]
    · constructor <;>
        simp [pollingHandleFastHTTP, handlePOST, postBody, hm, hd, pushLoop, hc,
          Nat.not_lt.mpr hge]
    · constructor <;>
        simp [pollingHandleFastHTTP, handlePOST, postBody, hm, hd, pushLoop, hc]
  · subst h
    have hne : (("text/plain" : String) == "application/octet-stream") = false := by decide
    have hne' : ("text/plain" : String) ≠ "application/octet-stream" := by decide
    rw [hne] at hd ⊢
    refine ⟨by simp [pollingHandleFastHTTP, handlePOST, postBody, hm, hne', hcs, hd],
      fun i hc hlt => ?_, fun i hc hge => ?_, fun hc => ?_⟩
    · constructor <;>
        simp [pollingHandleFastHTTP, handlePOST, postBody, hm, hne', hcs, hd, pushLoop,
          hc, hlt]
    · constructor <;>
        simp [pollingHandleFastHTTP, handlePOST, postBody, hm, hne', hcs, hd, pushLoop,
          hc, Nat.not_lt.mpr hge]
    · constructor <;>
        simp [pollingHandleFastHTTP, handlePOST, postBody, hm, hne', hcs, hd, pushLoop, hc]

/-- C7: a POST whose Content-Type is unparseable, is text/plain with a
charset other than utf-8 (case-insensitively), or is any media type
other than application/octet-stream and text/plain, answers 400 and
pushes nothing. -/
theorem post_rejected_media (genv : GetEnv) (penv : PostEnv)
    (hbad : penv.mediaParse = .error () ∨
      (∃ mt cs, penv.mediaParse = .ok (mt, cs) ∧ mt = "text/plain" ∧
        toLowerStr cs ≠ "utf-8") ∨
      (∃ mt cs, penv.mediaParse = .ok (mt, cs) ∧
        mt ≠ "application/octet-stream" ∧ mt ≠ "text/plain")) :
    (pollingHandleFastHTTP false "POST" genv penv).status = some 400 ∧
    (pollingHandleFastHTTP false "POST" genv penv).pushed = [] := by
  rcases hbad with h | ⟨mt, cs, hm, hmt, hcs⟩ | ⟨mt, cs, hm, h1, h2⟩
  · simp [pollingHandleFastHTTP, handlePOST, h]
  · subst hmt
    simp [pollingHandleFastHTTP, handlePOST, hm, hcs]
  · simp [pollingHandleFastHTTP, handlePOST, hm, h1, h2]

/-- C7 witness: a POST with media type text/html answers 400 and
pushes nothing. -/
theorem post_rejected_media_w :
    (pollingHandleFastHTTP false "POST" ⟨.error (), .error (), true⟩
      ⟨.ok ("text/html", ""), fun _ => .error (), none⟩).status = some 400 ∧
    (pollingHandleFastHTTP false "POST" ⟨.error (), .error (), true⟩
      ⟨.ok ("text/html", ""), fun _ => .error (), none⟩).pushed = [] :=
  post_rejected_media ⟨.error (), .error (), true⟩
    ⟨.ok ("text/html", ""), fun _ => .error (), none⟩
    (Or.inr (Or.inr ⟨"text/html", "", rfl, by decide, by decide⟩))

/-- C8: a GET that obtains a packet and parses its URI chooses JSONP
with Content-Type text/javascript when the jsonp parameter is
non-empty, else textual XHR with text/plain when b64=1, else binary
XHR2 with application/octet-stream, and (the write succeeding) the
status is 200. -/
theorem get_wire_format (genv : GetEnv) (penv : PostEnv) (pkt : Packet) (jp b64 : String)
    (hr : genv.readPacket = .ok pkt)
    (hu : genv.urlParse = .ok (jp, b64))
    (hw : genv.writeOk = true) :
    (pollingHandleFastHTTP false "GET" genv penv).status = some 200 ∧
    (jp ≠ "" →
      (pollingHandleFastHTTP false "GET" genv penv).contentType =
        some "text/javascript; charset=UTF-8" ∧
      (pollingHandleFastHTTP false "GET" genv penv).format = some WireFormat.JSONP) ∧
    (jp = "" → b64 = "1" →
      (pollingHandleFastHTTP false "GET" genv penv).contentType =
        some "text/plain; charset=UTF-8" ∧
      (pollingHandleFastHTTP false "GET" genv penv).format = some WireFormat.XHR) ∧
    (jp = "" → b64 ≠ "1" →
      (pollingHandleFastHTTP false "GET" genv penv).contentType =
        some "application/octet-stream" ∧
      (pollingHandleFastHTTP false "GET" genv penv).format = some WireFormat.XHR2) := by
  by_cases hj : jp = ""
  · by_cases hb : b64 = "1"
    · refine ⟨?_, ?_, ?_, ?_⟩ <;>
        simp [pollingHandleFastHTTP, handleGET, hr, hu, hw, hj, hb]
    · refine ⟨?_, ?_, ?_, ?_⟩ <;>
        simp [pollingHandleFastHTTP, handleGET, hr, hu, hw, hj, hb]
  · refine ⟨?_, ?_, ?_, ?_⟩ <;>
      simp [pollingHandleFastHTTP, handleGET, hr, hu, hw, hj]

/-- C8 witness: a GET with jsonp=3 in the query gets the JSONP format
with the text/javascript Content-Type and status 200. -/
theorem get_wire_format_w :
    (pollingHandleFastHTTP false "GET"
      ⟨.ok ⟨MessageType.MsgString, PacketType.Message, [1]⟩, .ok ("3", ""), true⟩
      ⟨.error (), fun _ => .error (), none⟩).status = some 200 ∧
    (("3" : String) ≠ "" →
      (pollingHandleFastHTTP false "GET"
        ⟨.ok ⟨MessageType.MsgString, PacketType.Message, [1]⟩, .ok ("3", ""), true⟩
        ⟨.error (), fun _ => .error (), none⟩).contentType =
          some "text/javascript; charset=UTF-8" ∧
      (pollingHandleFastHTTP false "GET"
        ⟨.ok ⟨MessageType.MsgString, PacketType.Message, [1]⟩, .ok ("3", ""), true⟩
        ⟨.error (), fun _ => .error (), none⟩).format = some WireFormat.JSONP) ∧
    (("3" : String) = "" → ("" : String) = "1" →
      (pollingHandleFastHTTP false "GET"
        ⟨.ok ⟨MessageType.MsgString, PacketType.Message, [1]⟩, .ok ("3", ""), true⟩
        ⟨.error (), fun _ => .error (), none⟩).contentType =
          some "text/plain; charset=UTF-8" ∧
      (pollingHandleFastHTTP false "GET"
        ⟨.ok ⟨MessageType.MsgString, PacketType.Message, [1]⟩, .ok ("3", ""), true⟩
        ⟨.error (), fun _ => .error (), none⟩).format = some WireFormat.XHR) ∧
    (("3" : String) = "" → ("" : String) ≠ "1" →
      (pollingHandleFastHTTP false "GET"
        ⟨.ok ⟨MessageType.MsgString, PacketType.Message, [1]⟩, .ok ("3", ""), true⟩
        ⟨.error (), fun _ => .error (), none⟩).contentType =
          some "application/octet-stream" ∧
      (pollingHandleFastHTTP false "GET"
        ⟨.ok ⟨MessageType.MsgString, PacketType.Message, [1]⟩, .ok ("3", ""), true⟩
        ⟨.error (), fun _ => .error (), none⟩).format = some WireFormat.XHR2) :=
  get_wire_format
    ⟨.ok ⟨MessageType.MsgString, PacketType.Message, [1]⟩, .ok ("3", ""), true⟩
    ⟨.error (), fun _ => .error (), none⟩
    ⟨MessageType.MsgString, PacketType.Message, [1]⟩ "3" "" rfl rfl rfl

/-- C9 counterexample: a GET arriving at an already-closed pollingConn
is answered with status 400 (fasthttp.StatusBadRequest at the top of
HandleFastHTTP), not 404 as claimed. -/
theorem closed_request_not_404 :
    (pollingHandleFastHTTP true "GET" ⟨.error (), .error (), true⟩
      ⟨.error (), fun _ => .error (), none⟩).status ≠ some 404 := by
  simp [pollingHandleFastHTTP]

/-- C9 amended: every request arriving at a pollingConn whose closed
signal has already fired is answered with status 400, regardless of the
method. -/
theorem closed_request_status_400 (method : String) (genv : GetEnv) (penv : PostEnv) :
    (pollingHandleFastHTTP true method genv penv).status = some 400 := by
  simp [pollingHandleFastHTTP]

/-- C6 witness: a POST of two packets as text/plain with charset UTF-8
on a conn whose closed signal is selected at the second push answers
404 with only the first packet pushed, in textual (non-xhr2) form. -/
theorem post_accepted_pushes_w :
    (pollingHandleFastHTTP false "POST" ⟨.error (), .error (), true⟩
      ⟨.ok ("text/plain", "UTF-8"),
        fun b => if b then .error () else
          .ok [⟨MessageType.MsgString, PacketType.Message, [4]⟩,
            ⟨MessageType.MsgString, PacketType.Message, [5]⟩],
        some 1⟩).xhr2Used = some (("text/plain" : String) == "application/octet-stream") ∧
    (∀ i, (some 1 : Option Nat) = some i →
      i < ([⟨MessageType.MsgString, PacketType.Message, [4]⟩,
        (⟨MessageType.MsgString, PacketType.Message, [5]⟩ : Packet)]).length →
      (pollingHandleFastHTTP false "POST" ⟨.error (), .error (), true⟩
        ⟨.ok ("text/plain", "UTF-8"),
          fun b => if b then .error () else
            .ok [⟨MessageType.MsgString, PacketType.Message, [4]⟩,
              ⟨MessageType.MsgString, PacketType.Message, [5]⟩],
          some 1⟩).status = some 404 ∧
      (pollingHandleFastHTTP false "POST" ⟨.error (), .error (), true⟩
        ⟨.ok ("text/plain", "UTF-8"),
          fun b => if b then .error () else
            .ok [⟨MessageType.MsgString, PacketType.Message, [4]⟩,
              ⟨MessageType.MsgString, PacketType.Message, [5]⟩],
          some 1⟩).pushed =
        ([⟨MessageType.MsgString, PacketType.Message, [4]⟩,
          (⟨MessageType.MsgString, PacketType.Message, [5]⟩ : Packet)]).take i) ∧
    (∀ i, (some 1 : Option Nat) = some i →
      ([⟨MessageType.MsgString, PacketType.Message, [4]⟩,
        (⟨MessageType.MsgString, PacketType.Message, [5]⟩ : Packet)]).length ≤ i →
      (pollingHandleFastHTTP false "POST" ⟨.error (), .error (), true⟩
        ⟨.ok ("text/plain", "UTF-8"),
          fun b => if b then .error () else
            .ok [⟨MessageType.MsgString, PacketType.Message, [4]⟩,
              ⟨MessageType.MsgString, PacketType.Message, [5]⟩],
          some 1⟩).status = some 200 ∧
      (pollingHandleFastHTTP false "POST" ⟨.error (), .error (), true⟩
        ⟨.ok ("text/plain", "UTF-8"),
          fun b => if b then .error () else
            .ok [⟨MessageType.MsgString, PacketType.Message, [4]⟩,
              ⟨MessageType.MsgString, PacketType.Message, [5]⟩],
          some 1⟩).pushed =
        [⟨MessageType.MsgString, PacketType.Message, [4]⟩,
          ⟨MessageType.MsgString, PacketType.Message, [5]⟩]) ∧
    ((some 1 : Option Nat) = none →
      (pollingHandleFastHTTP false "POST" ⟨.error (), .error (), true⟩
        ⟨.ok ("text/plain", "UTF-8"),
          fun b => if b then .error () else
            .ok [⟨MessageType.MsgString, PacketType.Message, [4]⟩,
              ⟨MessageType.MsgString, PacketType.Message, [5]⟩],
          some 1⟩).status = some 200 ∧
      (pollingHandleFastHTTP false "POST" ⟨.error (), .error (), true⟩
        ⟨.ok ("text/plain", "UTF-8"),
          fun b => if b then .error () else
            .ok [⟨MessageType.MsgString, PacketType.Message, [4]⟩,
              ⟨MessageType.MsgString, PacketType.Message, [5]⟩],
          some 1⟩).pushed =
        [⟨MessageType.MsgString, PacketType.Message, [4]⟩,
          ⟨MessageType.MsgString, PacketType.Message, [5]⟩]) :=
  post_accepted_pushes ⟨.error (), .error (), true⟩
    ⟨.ok ("text/plain", "UTF-8"),
      fun b => if b then .error () else
        .ok [⟨MessageType.MsgString, PacketType.Message, [4]⟩,
          ⟨MessageType.MsgString, PacketType.Message, [5]⟩],
      some 1⟩
    "text/plain" "UTF-8"
    [⟨MessageType.MsgString, PacketType.Message, [4]⟩,
      ⟨MessageType.MsgString, PacketType.Message, [5]⟩]
    rfl (Or.inr ⟨rfl, by decide⟩) rfl
